import Mathlib

/-!
Verification development for the reminder scheduling and delivery engine of
the `bottelegramclient1` repository.

The live engine is the `SchedulerService` in `src/services/scheduler_service.py`
(imported and started by `src/main.py`; its `_process_daily_reminders_sync` is
also invoked directly by the manual "force" trigger in `main.py`).  The file
`src/services/database_service.py` contains a second, divergent
`SchedulerService` that is never imported anywhere; where its behaviour
matters for a claim it is embedded under `db`-prefixed names.

Calendar dates are embedded as integers (day indices); clock times of day as
minutes since midnight.  Machine strings are embedded as Lean `String`s /
`List Char`.
-/

/-! ## Time-of-day parsing

`scheduler_service.py` parses `settings.morning_reminder_time` with
`datetime.strptime(s, "%H:%M")` (lines 110-116); `database_service.py` parses
with `map(int, s.split(":"))` followed by `datetime.replace(hour=…, minute=…)`
(lines 179-185).  Both accept one-or-two digit fields and reject anything that
is not two in-range numeric fields separated by a colon; both are embedded as
`parseHHMM`, returning minutes since midnight. -/

/-- Split a character list on a separator character (model of `str.split`). -/
def splitOnChar (sep : Char) : List Char → List (List Char)
  | [] => [[]]
  | c :: rest =>
    let ps := splitOnChar sep rest
    if c = sep then [] :: ps
    else
      match ps with
      | [] => [[c]]
      | h :: t => (c :: h) :: t

/-- Parse a non-empty all-digit character list as a natural number
(model of `int(...)` / `strptime` field parsing on time fields). -/
def digitsToNat? : List Char → Option Nat
  | [] => none
  | cs =>
    cs.foldl
      (fun acc c =>
        acc.bind fun n => if c.isDigit then some (n * 10 + (c.toNat - 48)) else none)
      (some 0)

/-- Parse `"HH:MM"` into minutes since midnight; `none` models the
`ValueError` raised for a malformed or out-of-range time string. -/
def parseHHMM (s : String) : Option Nat :=
  match splitOnChar ':' s.data with
  | [h, m] =>
    match digitsToNat? h, digitsToNat? m with
    | some hh, some mm => if hh < 24 ∧ mm < 60 then some (hh * 60 + mm) else none
    | _, _ => none
  | _ => none

/-! ## Accounts and schedule settings -/

/-- A row of the `users` table as read by the tick loop. -/
structure UserRow where
  id : Nat
  isActive : Bool
deriving DecidableEq

/-- A row of `user_schedule_settings`.  `lastMorningRun` / `lastReportRun`
hold the business date (day index) of the last completed run, if any. -/
structure ScheduleSettings where
  morningReminderTime : Option String
  dailyReportTime : Option String
  autoSendEnabled : Bool
  lastMorningRun : Option Int
  lastReportRun : Option Int
deriving DecidableEq

/-- `settings.morning_reminder_time if settings.morning_reminder_time else
'09:00'`: `None` and the empty string are both falsy in Python. -/
def effectiveTimeStr (v : Option String) (dflt : String) : String :=
  match v with
  | none => dflt
  | some s => if s = "" then dflt else s

/-- Tick decision of the live engine for one account
(`scheduler_service.py` lines 104-123): skip when auto-send is disabled,
skip (with an error log) when the time string fails to parse, otherwise run
the classification pass whenever the current time-of-day has reached the
configured time.  The stored `last_morning_run` date is deliberately not
consulted by this code ("NO PROTECTION DURING TEST PHASE"). -/
def schedTickRuns (st : ScheduleSettings) (curMinutes : Nat) : Bool :=
  if !st.autoSendEnabled then false
  else
    match parseHHMM (effectiveTimeStr st.morningReminderTime "09:00") with
    | none => false
    | some cfg => cfg ≤ curMinutes

/-- Whether the live tick logs an "Invalid time format" warning for the
account (`scheduler_service.py` lines 114-116). -/
def schedTickWarnsInvalidTime (st : ScheduleSettings) : Bool :=
  st.autoSendEnabled &&
    (parseHHMM (effectiveTimeStr st.morningReminderTime "09:00")).isNone

/-- Configured morning time of the unused `database_service.py` variant
(lines 179-185): on a parse failure it logs an error and falls back to the
default 09:00 instead of skipping the account. -/
def dbMorningMinutes (st : ScheduleSettings) : Nat :=
  match parseHHMM (effectiveTimeStr st.morningReminderTime "09:00") with
  | some cfg => cfg
  | none => 9 * 60

/-- Tick decision of the `database_service.py` variant (lines 174-214):
`will_run_morning = brazil_now >= morning_dt and last_morning_run != today`,
guarded by the auto-send flag. -/
def dbTickRuns (st : ScheduleSettings) (curMinutes : Nat) (today : Int) : Bool :=
  st.autoSendEnabled && decide (dbMorningMinutes st ≤ curMinutes) &&
    decide (st.lastMorningRun ≠ some today)

/-! ## Tick loop over all accounts (live engine)

`_check_reminder_times` iterates the joined `(User, UserScheduleSettings)`
rows filtered on `User.is_active == True`; rows without settings get the
default settings (`09:00` / `08:00`, auto-send on).  Per-account outcomes are
independent (each account's body is guarded by its own `try`/`continue`), so
the loop is embedded as filters over the row list. -/

/-- Default settings created for a user without a settings row
(`scheduler_service.py` lines 91-101). -/
def settingsOrDefault (o : Option ScheduleSettings) : ScheduleSettings :=
  match o with
  | some st => st
  | none => ⟨some "09:00", some "08:00", true, none, none⟩

/-- Ids of the accounts for which one tick of the live engine runs a
classification pass. -/
def schedProcessedUsers (curMinutes : Nat)
    (rows : List (UserRow × Option ScheduleSettings)) : List Nat :=
  ((rows.filter (fun r => r.1.isActive)).filter
      (fun r => schedTickRuns (settingsOrDefault r.2) curMinutes)).map
    (fun r => r.1.id)

/-- Ids of the accounts for which one tick logs an invalid-time warning. -/
def schedWarnedUsers (rows : List (UserRow × Option ScheduleSettings)) : List Nat :=
  ((rows.filter (fun r => r.1.isActive)).filter
      (fun r => schedTickWarnsInvalidTime (settingsOrDefault r.2))).map
    (fun r => r.1.id)

/-! ## Clients and reminder classification (live engine)

`_process_daily_reminders_sync` (`scheduler_service.py` lines 903-996) builds
four query groups over the user's clients; all four filter on
`status == 'active'` and `auto_reminders_enabled == True` and differ only in
the due-date condition.  `today` there is `date.today()` (see the clock model
below); here the groups are parameterised by the date actually used. -/

/-- A row of the `clients` table, restricted to the columns the scheduler
reads for classification and sending. -/
structure Client where
  id : Nat
  userId : Nat
  dueDate : Int
  statusActive : Bool
  autoRemindersEnabled : Bool
deriving DecidableEq

/-- The four reminder buckets (`reminder_groups` keys). -/
inductive Bucket where
  | twoDays
  | oneDay
  | dueToday
  | overdue
deriving DecidableEq

/-- The literal `template_type` name under which each bucket is stored. -/
def Bucket.typeName : Bucket → String
  | .twoDays => "reminder_2_days"
  | .oneDay => "reminder_1_day"
  | .dueToday => "reminder_due_date"
  | .overdue => "reminder_overdue"

/-- Filter condition of the query building each group
(`scheduler_service.py` lines 930-955). -/
def inSyncGroup (uid : Nat) (today : Int) (b : Bucket) (c : Client) : Bool :=
  c.userId == uid && c.statusActive && c.autoRemindersEnabled &&
    match b with
    | .twoDays => c.dueDate == today + 2
    | .oneDay => c.dueDate == today + 1
    | .dueToday => c.dueDate == today
    | .overdue => decide (c.dueDate < today)

/-- The client list of one reminder group of the sync pass. -/
def syncReminderGroup (uid : Nat) (today : Int) (b : Bucket)
    (clients : List Client) : List Client :=
  clients.filter (inSyncGroup uid today b)

/-- Group condition of the unused `database_service.py` variant
(`_process_daily_reminders_for_user`, lines 482-503): identical for the
first three buckets, but its `reminder_overdue` group contains only clients
with `due_date == today - timedelta(days=1)`. -/
def inDbGroup (uid : Nat) (today : Int) (b : Bucket) (c : Client) : Bool :=
  c.userId == uid && c.statusActive && c.autoRemindersEnabled &&
    match b with
    | .twoDays => c.dueDate == today + 2
    | .oneDay => c.dueDate == today + 1
    | .dueToday => c.dueDate == today
    | .overdue => c.dueDate == today - 1

/-! ## Message templates and template resolution -/

/-- A row of `message_templates`, restricted to the columns the scheduler
reads. -/
structure MessageTemplate where
  id : Nat
  userId : Nat
  templateType : String
  isActive : Bool
deriving DecidableEq

/-- Template resolution of the engine (`scheduler_service.py` lines
1000-1005 and identically `database_service.py` lines 515-519):
`query(MessageTemplate).filter_by(user_id=…, template_type=…,
is_active=True).first()`. -/
def resolveTemplate (templates : List MessageTemplate) (uid : Nat)
    (rtype : String) : Option MessageTemplate :=
  templates.find? (fun t => t.userId == uid && t.templateType == rtype && t.isActive)

/-- Modelled from the spec: ordered alias-list resolution (§4.4), "consult an
ordered alias list per bucket and return the first active template matching
any alias name".  Compared below with `resolveTemplate`. -/
def resolveByAliases (templates : List MessageTemplate) (uid : Nat) :
    List String → Option MessageTemplate
  | [] => none
  | a :: rest =>
    match resolveTemplate templates uid a with
    | some t => some t
    | none => resolveByAliases templates uid rest

/-- The alias list each bucket resolves through: the source stores every
bucket under exactly one literal `template_type` name, so the list is the
singleton canonical name. -/
def bucketAliases (b : Bucket) : List String := [b.typeName]

/-! ## Transport outcomes and the two send pipelines -/

/-- Outcome of one `whatsapp_service.send_message` call as observed by the
caller: a returned dict with a `success` flag and optional `error` field, or
a raised exception with its message. -/
inductive SendOutcome where
  | ok (success : Bool) (error : Option String)
  | exn (msg : String)
deriving DecidableEq

/-- Whether the outcome is a dict reporting success. -/
def outcomeSuccess : SendOutcome → Bool
  | .ok s _ => s
  | .exn _ => false

/-- Per-job send of the live sync pass (`scheduler_service.py` lines
1047-1061): one transport call, no retry; returns (number of transport
attempts, recorded status, recorded error message). -/
def syncSend : SendOutcome → Nat × String × Option String
  | .ok s e => (1, if s then "sent" else "failed", if s then none else e)
  | .exn m => (1, "failed", some m)

/-- One iteration step of the retry loop of the unused
`database_service.py` variant (lines 551-566): `resp` is only reassigned
when the call returns (an exception leaves the previous value in place). -/
def respStep (o : SendOutcome) (resp : Option (Bool × Option String)) :
    Option (Bool × Option String) :=
  match o with
  | .ok s e => some (s, e)
  | .exn _ => resp

/-- The retry loop `for attempt in range(1, attempts + 1)` of
`database_service.py` `_send_reminders_by_type`: breaks as soon as `resp` is
a successful dict, otherwise sleeps `attempt` seconds and retries.  Returns
(transport attempts made, sleep durations performed, final `resp`). -/
def dbRetryLoop (t : Nat → SendOutcome) :
    List Nat → Option (Bool × Option String) →
    Nat × List Nat × Option (Bool × Option String)
  | [], resp => (0, [], resp)
  | a :: rest, resp =>
    let resp' := respStep (t a) resp
    if resp'.elim false (fun r => r.1) then (1, [], resp')
    else
      let r := dbRetryLoop t rest resp'
      (r.1 + 1, a :: r.2.1, r.2.2)

/-- The full retry sequence: attempts 1, 2, 3 starting from `resp = None`. -/
def dbSendResult (t : Nat → SendOutcome) :
    Nat × List Nat × Option (Bool × Option String) :=
  dbRetryLoop t [1, 2, 3] none

/-- Status recorded by the db variant after the loop:
`"sent" if isinstance(resp, dict) and resp.get("success") else "failed"`. -/
def dbStatus (t : Nat → SendOutcome) : String :=
  match (dbSendResult t).2.2 with
  | some (true, _) => "sent"
  | _ => "failed"

/-- Error message recorded by the db variant: `None` when sent, the last
dict's `error` field when a dict was returned, `"send failed"` when every
attempt raised. -/
def dbErrorMsg (t : Nat → SendOutcome) : Option String :=
  match (dbSendResult t).2.2 with
  | some (true, _) => none
  | some (false, e) => e
  | none => some "send failed"

/-! ## Delivery ledger (`message_logs`) and the sync pass

The dedup check of the live pass (`scheduler_service.py` lines 1017-1029)
queries for an existing row with the same user, client and `template_type`,
`func.date(sent_at) == today` and `status == 'sent'`; a matching row makes
the pass skip the client.  After a send attempt exactly one row is appended
(lines 1063-1075) whose status is `'sent'` iff the transport reported
success.  The update of `client.last_reminder_sent` (lines 1079-1084) feeds
no queried condition and is not modelled. -/

/-- A row of `message_logs`, restricted to the columns the dedup check and
the claims read.  `date` is the calendar date of `sent_at`. -/
structure MessageLog where
  userId : Nat
  clientId : Nat
  templateType : String
  date : Int
  status : String
  errorMessage : Option String
deriving DecidableEq

/-- The dedup query's row condition. -/
def logMatchesSent (uid cid : Nat) (ty : String) (d : Int) (l : MessageLog) : Bool :=
  l.userId == uid && l.clientId == cid && l.templateType == ty &&
    l.date == d && l.status == "sent"

/-- `existing_log is not None` for the dedup query. -/
def dedupHit (ledger : List MessageLog) (uid cid : Nat) (ty : String) (d : Int) : Bool :=
  ledger.any (logMatchesSent uid cid ty d)

/-- Number of `'sent'` rows for one (account, client, bucket, date) key. -/
def sentCount (ledger : List MessageLog) (uid cid : Nat) (ty : String) (d : Int) : Nat :=
  (ledger.filter (logMatchesSent uid cid ty d)).length

/-- The log row appended for one processed client. -/
def mkSyncLog (uid : Nat) (today : Int) (ty : String) (cid : Nat)
    (o : SendOutcome) : MessageLog :=
  { userId := uid, clientId := cid, templateType := ty, date := today,
    status := (syncSend o).2.1, errorMessage := (syncSend o).2.2 }

/-- Processing of one client inside a bucket of the sync pass: skip when the
dedup query finds a `'sent'` row for today, otherwise perform the single
send attempt and append exactly one log row.  `send` maps a client id to the
transport outcome for that client's job. -/
def processSyncClient (uid : Nat) (today : Int) (ty : String)
    (send : Nat → SendOutcome) (ledger : List MessageLog) (c : Client) :
    List MessageLog :=
  if dedupHit ledger uid c.id ty today then ledger
  else ledger ++ [mkSyncLog uid today ty c.id (send c.id)]

/-- Processing of one bucket of the sync pass (`scheduler_service.py`
lines 993-1087): empty groups are skipped silently (line 995), a missing
active template skips the whole bucket with a single warning (lines
1007-1009), otherwise every client of the group is processed in order.
Returns the new ledger and the number of warnings logged. -/
def processSyncBucket (templates : List MessageTemplate) (uid : Nat)
    (today : Int) (send : Nat → SendOutcome) (clients : List Client)
    (b : Bucket) (ledger : List MessageLog) : List MessageLog × Nat :=
  let cs := syncReminderGroup uid today b clients
  if cs.isEmpty then (ledger, 0)
  else
    match resolveTemplate templates uid b.typeName with
    | none => (ledger, 1)
    | some _ => (cs.foldl (processSyncClient uid today b.typeName send) ledger, 0)

/-- One full classification pass (`_process_daily_reminders_sync`) over the
four buckets in their dict order. -/
def processDailyRemindersSync (templates : List MessageTemplate) (uid : Nat)
    (today : Int) (send : Nat → SendOutcome) (clients : List Client)
    (ledger : List MessageLog) : List MessageLog × Nat :=
  [Bucket.twoDays, Bucket.oneDay, Bucket.dueToday, Bucket.overdue].foldl
    (fun acc b =>
      let r := processSyncBucket templates uid today send clients b acc.1
      (r.1, acc.2 + r.2))
    (ledger, 0)

/-- One invocation of the classification pass: the natural tick and the
manual "force" trigger both call `_process_daily_reminders_sync`, each with
its own session data and date. -/
structure PassInv where
  templates : List MessageTemplate
  uid : Nat
  today : Int
  send : Nat → SendOutcome
  clients : List Client

/-- Run any sequence of classification-pass invocations against a ledger. -/
def runPasses (invs : List PassInv) (ledger : List MessageLog) : List MessageLog :=
  invs.foldl
    (fun L inv =>
      (processDailyRemindersSync inv.templates inv.uid inv.today inv.send
        inv.clients L).1)
    ledger

/-! ## Clock environment (C8)

`_check_reminder_times` computes now/today via
`datetime.now(pytz.timezone('America/Sao_Paulo'))` (lines 71-75), but
`_check_due_dates` uses `date.today()` (line 366) and
`_process_daily_reminders_sync` uses `date.today()` / `datetime.now()`
(lines 916-925, 1018, 1071) — the host's local clock. -/

/-- The two clocks visible to the process: the São Paulo wall clock and the
host-local clock. -/
structure ClockEnv where
  spToday : Int
  spMinutes : Nat
  hostToday : Int
  hostMinutes : Nat
deriving DecidableEq

/-- The tick decision with its clock source made explicit: the live tick
compares the São Paulo time of day against the configured time. -/
def schedTickRunsEnv (env : ClockEnv) (st : ScheduleSettings) : Bool :=
  schedTickRuns st env.spMinutes

/-- Overdue housekeeping `_check_due_dates` (`scheduler_service.py` lines
354-382): clients with `due_date < date.today()` and active status are
marked inactive.  Note the host-local `date.today()`. -/
def checkDueDates (env : ClockEnv) (clients : List Client) : List Client :=
  clients.map fun c =>
    if c.statusActive && decide (c.dueDate < env.hostToday) then
      { c with statusActive := false }
    else c

/-- Modelled from the spec: the same housekeeping with `today` taken from the
single fixed America/Sao_Paulo timezone, as §4.1 and the claim require. -/
def checkDueDatesSaoPaulo (env : ClockEnv) (clients : List Client) : List Client :=
  clients.map fun c =>
    if c.statusActive && decide (c.dueDate < env.spToday) then
      { c with statusActive := false }
    else c

/-- The sync pass's reminder groups with their clock source made explicit:
`today = date.today()` is the host-local date. -/
def syncGroupsEnv (env : ClockEnv) (uid : Nat) (b : Bucket)
    (clients : List Client) : List Client :=
  syncReminderGroup uid env.hostToday b clients

/-! ## Outbound phone-number normalisation (C10)

`whatsapp_service.py` `send_message` (lines 97-109):
`clean = "".join(filter(str.isdigit, phone_number or ""))` and
`if not clean.startswith("55"): clean = "55" + clean`; `clean` is the
number posted to the transport.  (`str.isdigit` is embedded as
`Char.isDigit`; the engine's phone data is ASCII.) -/

/-- The digits extracted from the input. -/
def cleanDigits (phone : List Char) : List Char :=
  phone.filter Char.isDigit

/-- The recipient number actually handed to the transport. -/
def normalizedNumber (phone : List Char) : List Char :=
  let clean := cleanDigits phone
  if ("55".data).isPrefixOf clean then clean else "55".data ++ clean

/-! ## Template body rendering (C7)

`_replace_template_variables` (`scheduler_service.py` lines 664-684) builds
a dict of six placeholder/value pairs and applies `str.replace` for each in
insertion order, then (only when `client.other_info` is falsy) collapses
triple newlines once, and finally strips the result.  Strings are embedded
as `List Char`; `str.replace` as `replaceAll` (leftmost, non-overlapping,
all occurrences). -/

/-- Python `str.replace p r` on character lists: scan left to right, replace
every non-overlapping occurrence of `p` by `r`. -/
def replaceAll (p r : List Char) : List Char → List Char
  | [] => []
  | c :: s =>
    if h : p ≠ [] ∧ p.isPrefixOf (c :: s) then
      r ++ replaceAll p r ((c :: s).drop p.length)
    else
      c :: replaceAll p r s
termination_by s => s.length
decreasing_by
  · have hp : 0 < p.length := List.length_pos.mpr h.1
    simp only [List.length_drop, List.length_cons]
    omega
  · simp only [List.length_cons]
    omega

/-- Whether `p` occurs as a contiguous subsequence of the argument. -/
def containsSeq (p : List Char) : List Char → Bool
  | [] => p.isEmpty
  | c :: s => p.isPrefixOf (c :: s) || containsSeq p s

/-- `p` is guaranteed to mismatch against the head of `x` at some index that
lies strictly inside `x` (so the mismatch holds however `x` is extended). -/
def mismatchWithin : List Char → List Char → Bool
  | [], _ => false
  | _ :: _, [] => false
  | a :: p, b :: x => a != b || mismatchWithin p x

/-- `p` mismatches within `x` at every start position of `x`: `p` cannot
begin to match anywhere inside `x ++ s`, for any continuation `s`. -/
def localMismatchB (p : List Char) : List Char → Bool
  | [] => true
  | c :: x => mismatchWithin p (c :: x) && localMismatchB p x

/-- No `'{'` occurs in the list (substituted field values are assumed
brace-free in the rendering theorem's hypotheses). -/
def openBraceFreeB (s : List Char) : Bool :=
  s.all (fun c => c != '{')

/-- Decimal digit characters of a natural number (fuel-indexed so that the
definition is structural; `natDigits` supplies sufficient fuel). -/
def natDigitsAux : Nat → Nat → List Char
  | 0, _ => []
  | fuel + 1, n =>
    if n < 10 then [Char.ofNat (48 + n)]
    else natDigitsAux fuel (n / 10) ++ [Char.ofNat (48 + n % 10)]

/-- Decimal representation of a natural number. -/
def natDigits (n : Nat) : List Char :=
  natDigitsAux (n + 1) n

/-- Zero-pad to two digits (`%d`, `%m` and the cents of `%.2f`). -/
def pad2 (n : Nat) : List Char :=
  if n < 10 then '0' :: natDigits n else natDigits n

/-- Zero-pad to four digits (`%Y`). -/
def pad4 (n : Nat) : List Char :=
  if n < 10 then '0' :: '0' :: '0' :: natDigits n
  else if n < 100 then '0' :: '0' :: natDigits n
  else if n < 1000 then '0' :: natDigits n
  else natDigits n

/-- `f"{client.plan_price:.2f}"`, with the price held exactly as cents
(the source stores a float; exact cents make the two-decimal formatting
faithful without floating point). -/
def fmtPrice (cents : Nat) : List Char :=
  natDigits (cents / 100) ++ '.' :: pad2 (cents % 100)

/-- `client.due_date.strftime('%d/%m/%Y')`. -/
def fmtDate (d m y : Nat) : List Char :=
  pad2 d ++ '/' :: pad2 m ++ '/' :: pad4 y

/-- The client columns read by `_replace_template_variables`.  `server` and
`otherInfo` model `client.server` / `client.other_info` with Python's falsy
`None`/`""` collapsed to the empty list. -/
structure RenderClient where
  name : List Char
  planName : List Char
  priceCents : Nat
  dueDay : Nat
  dueMonth : Nat
  dueYear : Nat
  server : List Char
  otherInfo : List Char

/-- `client.server or 'Não definido'`. -/
def serverValue (c : RenderClient) : List Char :=
  if c.server = [] then "Não definido".data else c.server

/-- The six `str.replace` substitutions in dict insertion order
(`{nome}`, `{plano}`, `{valor}`, `{vencimento}`, `{servidor}`,
`{informacoes_extras}`). -/
def renderCore (c : RenderClient) (t : List Char) : List Char :=
  replaceAll "{informacoes_extras}".data c.otherInfo
    (replaceAll "{servidor}".data (serverValue c)
      (replaceAll "{vencimento}".data (fmtDate c.dueDay c.dueMonth c.dueYear)
        (replaceAll "{valor}".data (fmtPrice c.priceCents)
          (replaceAll "{plano}".data c.planName
            (replaceAll "{nome}".data c.name t)))))

/-- Python `str.strip()` (whitespace from both ends). -/
def pyStrip (s : List Char) : List Char :=
  ((s.dropWhile Char.isWhitespace).reverse.dropWhile Char.isWhitespace).reverse

/-- Full `_replace_template_variables`: substitution loop, the conditional
triple-newline collapse (`if not client.other_info`), and `strip()`. -/
def renderTemplate (c : RenderClient) (t : List Char) : List Char :=
  pyStrip
    (if c.otherInfo = [] then
      replaceAll "\n\n\n".data "\n\n".data (renderCore c t)
    else renderCore c t)

/-- The six placeholder keys of the fixed substitution set. -/
def templateKeys : List (List Char) :=
  ["{nome}".data, "{plano}".data, "{valor}".data, "{vencimento}".data,
   "{servidor}".data, "{informacoes_extras}".data]

/-- A canonical template exercising all six placeholders plus one unknown
placeholder `{foo}`, guarded by non-whitespace edge characters. -/
def tpl : List Char :=
  "A".data ++ ("{nome}".data ++ ("|{foo}|".data ++ ("{plano}".data ++
    ("|".data ++ ("{valor}".data ++ ("|".data ++ ("{vencimento}".data ++
    ("|".data ++ ("{servidor}".data ++ ("|".data ++
    ("{informacoes_extras}".data ++ "Z".data)))))))))))

/-! # Helper lemmas -/

/-- A list is a `isPrefixOf` of itself followed by anything. -/
theorem isPrefixOf_self_append (p s : List Char) : p.isPrefixOf (p ++ s) = true := by
  induction p with
  | nil => simp [List.isPrefixOf]
  | cons a p ih => simp [List.isPrefixOf, ih]

/-! # C10 — phone-number normalisation -/

/-- Unfolding of `normalizedNumber` without the intermediate `let`. -/
theorem normalizedNumber_eq (phone : List Char) :
    normalizedNumber phone =
      (if ("55".data).isPrefixOf (cleanDigits phone) then cleanDigits phone
       else "55".data ++ cleanDigits phone) := rfl

/-- C10: the number handed to the transport consists of exactly the decimal
digits of the input, with the country code `55` prepended iff the digit
string does not already start with `55`; the result is all digits and the
normalisation is idempotent. -/
theorem phone_normalization (phone : List Char) :
    (normalizedNumber phone).all Char.isDigit = true ∧
    normalizedNumber phone =
      (if ("55".data).isPrefixOf (cleanDigits phone) then cleanDigits phone
       else "55".data ++ cleanDigits phone) ∧
    normalizedNumber (normalizedNumber phone) = normalizedNumber phone := by
  have hdig : ∀ c ∈ cleanDigits phone, c.isDigit = true := by
    intro c hc
    exact List.of_mem_filter hc
  have hall : (normalizedNumber phone).all Char.isDigit = true := by
    rw [List.all_eq_true]
    intro c hc
    rw [normalizedNumber_eq] at hc
    by_cases h : ("55".data).isPrefixOf (cleanDigits phone) = true
    · rw [if_pos h] at hc
      exact hdig c hc
    · rw [if_neg h] at hc
      rcases List.mem_append.mp hc with h5 | hcl
      · rw [show "55".data = ['5', '5'] from rfl] at h5
        have : c = '5' := by simpa using h5
        subst this
        decide
      · exact hdig c hcl
  refine ⟨hall, rfl, ?_⟩
  have hclean : cleanDigits (normalizedNumber phone) = normalizedNumber phone := by
    unfold cleanDigits
    exact List.filter_eq_self.mpr (List.all_eq_true.mp hall)
  have h55 : ("55".data).isPrefixOf (cleanDigits (normalizedNumber phone)) = true := by
    rw [hclean, normalizedNumber_eq]
    by_cases h : ("55".data).isPrefixOf (cleanDigits phone) = true
    · rw [if_pos h]
      exact h
    · rw [if_neg h]
      exact isPrefixOf_self_append _ _
  rw [normalizedNumber_eq (normalizedNumber phone), if_pos h55, hclean]

/-! # C5 — catch-up on the next tick -/

/-- C5: whenever the current time-of-day has reached the configured reminder
time and the stored last-run date is not today, the next tick triggers a
classification pass for the account — however late the tick is.  This holds
for the live tick decision (which does not even consult the last-run date)
and for the gated decision of the `database_service.py` variant. -/
theorem catchup_next_tick (st : ScheduleSettings) (cfg curMinutes : Nat) (today : Int)
    (h1 : st.autoSendEnabled = true)
    (h2 : parseHHMM (effectiveTimeStr st.morningReminderTime "09:00") = some cfg)
    (h3 : cfg ≤ curMinutes)
    (h4 : st.lastMorningRun ≠ some today) :
    schedTickRuns st curMinutes = true ∧ dbTickRuns st curMinutes today = true := by
  constructor
  · unfold schedTickRuns
    rw [h1, h2]
    simpa using h3
  · unfold dbTickRuns dbMorningMinutes
    rw [h1, h2]
    simp [h3, h4]

/-- Witness for C5: configured time 09:00, last run yesterday, tick arrives
only at 14:00 — the pass still runs on that tick. -/
theorem catchup_next_tick_witness :
    schedTickRuns ⟨some "09:00", some "08:00", true, some 7499, none⟩ 840 = true ∧
    dbTickRuns ⟨some "09:00", some "08:00", true, some 7499, none⟩ 840 7500 = true :=
  catchup_next_tick ⟨some "09:00", some "08:00", true, some 7499, none⟩ 540 840 7500
    rfl (by decide) (by decide) (by decide)

/-! # C3 — at-most-once-per-day gate (code bug) -/

/-- C3 (code evaluated at the failing input): the live tick decision runs the
classification pass on every tick at or past the configured time — here two
ticks at 09:05 and 09:15 on a day whose date (7500) is already recorded as
the account's `last_morning_run` — while the gated decision of the
`database_service.py` variant (which implements the intended
`last_morning_run != today` check) blocks the same ticks. -/
theorem sync_tick_reruns_same_day :
    schedTickRuns ⟨some "09:00", some "08:00", true, some 7500, none⟩ 545 = true ∧
    schedTickRuns ⟨some "09:00", some "08:00", true, some 7500, none⟩ 555 = true ∧
    dbTickRuns ⟨some "09:00", some "08:00", true, some 7500, none⟩ 545 7500 = false := by
  decide

/-! # C9 — invalid configured time string -/

/-- C9: an account whose configured reminder time fails to parse is skipped
by the tick (it contributes no classification pass and the remaining
accounts are processed exactly as if it were absent), and an invalid-time
warning is logged for it. -/
theorem invalid_time_skips_account (u : UserRow) (st : ScheduleSettings)
    (rows1 rows2 : List (UserRow × Option ScheduleSettings)) (curMinutes : Nat)
    (hu : u.isActive = true)
    (ha : st.autoSendEnabled = true)
    (hp : parseHHMM (effectiveTimeStr st.morningReminderTime "09:00") = none) :
    schedProcessedUsers curMinutes (rows1 ++ (u, some st) :: rows2) =
      schedProcessedUsers curMinutes rows1 ++ schedProcessedUsers curMinutes rows2 ∧
    u.id ∈ schedWarnedUsers (rows1 ++ (u, some st) :: rows2) := by
  have hrun : schedTickRuns st curMinutes = false := by
    unfold schedTickRuns
    rw [ha, hp]
    simp
  have hwarn : schedTickWarnsInvalidTime st = true := by
    unfold schedTickWarnsInvalidTime
    rw [ha, hp]
    simp
  constructor
  · unfold schedProcessedUsers
    simp [List.filter_append, List.map_append, hu, settingsOrDefault, hrun]
  · unfold schedWarnedUsers
    simp [List.filter_append, List.map_append, hu, settingsOrDefault, hwarn]

/-- Witness for C9: an account with morning time `"70:00"` among two other
accounts is skipped with a warning and does not disturb them. -/
theorem invalid_time_skips_account_witness :
    schedProcessedUsers 600
        ([(⟨1, true⟩, some ⟨some "09:00", some "08:00", true, none, none⟩)] ++
          (⟨2, true⟩, some ⟨some "70:00", some "08:00", true, none, none⟩) ::
          [(⟨3, true⟩, some ⟨some "08:30", some "08:00", true, none, none⟩)]) =
      schedProcessedUsers 600
          [(⟨1, true⟩, some ⟨some "09:00", some "08:00", true, none, none⟩)] ++
        schedProcessedUsers 600
          [(⟨3, true⟩, some ⟨some "08:30", some "08:00", true, none, none⟩)] ∧
    (2 : Nat) ∈ schedWarnedUsers
        ([(⟨1, true⟩, some ⟨some "09:00", some "08:00", true, none, none⟩)] ++
          (⟨2, true⟩, some ⟨some "70:00", some "08:00", true, none, none⟩) ::
          [(⟨3, true⟩, some ⟨some "08:30", some "08:00", true, none, none⟩)]) :=
  invalid_time_skips_account ⟨2, true⟩ ⟨some "70:00", some "08:00", true, none, none⟩
    _ _ 600 rfl rfl (by decide)

/-! # C2 — reminder classification -/

/-- C2: for an active, opted-in client of the processed account, the sync
pass's reminder groups realise exactly the claimed bucket rules — two days
before iff `due = today + 2`, one day before iff `due = today + 1`, due
today iff `due = today`, overdue iff `due < today` (hence on every day the
client stays overdue and active) — and no bucket otherwise; inactive or
opted-out clients are in no bucket. -/
theorem sync_classification_buckets (uid : Nat) (today : Int) (c : Client)
    (clients : List Client)
    (hc : c ∈ clients) (hu : c.userId = uid)
    (ha : c.statusActive = true) (hr : c.autoRemindersEnabled = true) :
    (c ∈ syncReminderGroup uid today .twoDays clients ↔ c.dueDate = today + 2) ∧
    (c ∈ syncReminderGroup uid today .oneDay clients ↔ c.dueDate = today + 1) ∧
    (c ∈ syncReminderGroup uid today .dueToday clients ↔ c.dueDate = today) ∧
    (c ∈ syncReminderGroup uid today .overdue clients ↔ c.dueDate < today) ∧
    (today + 2 < c.dueDate → ∀ b, c ∉ syncReminderGroup uid today b clients) ∧
    (∀ c' ∈ clients, c'.statusActive = false ∨ c'.autoRemindersEnabled = false →
      ∀ b, c' ∉ syncReminderGroup uid today b clients) := by
  refine ⟨?_, ?_, ?_, ?_, ?_, ?_⟩
  · simp [syncReminderGroup, List.mem_filter, inSyncGroup, hc, hu, ha, hr]
  · simp [syncReminderGroup, List.mem_filter, inSyncGroup, hc, hu, ha, hr]
  · simp [syncReminderGroup, List.mem_filter, inSyncGroup, hc, hu, ha, hr]
  · simp [syncReminderGroup, List.mem_filter, inSyncGroup, hc, hu, ha, hr]
  · intro hlt b
    cases b <;>
      simp [syncReminderGroup, List.mem_filter, inSyncGroup, hu, ha, hr] <;>
      omega
  · intro c' _ hoff b
    rcases hoff with hoff | hoff <;>
      cases b <;>
      simp [syncReminderGroup, List.mem_filter, inSyncGroup, hoff]

/-- Witness for C2: a client five days overdue is classified `overdue` (and
in no other bucket) with today = 0. -/
theorem sync_classification_buckets_witness :
    ((⟨7, 1, -5, true, true⟩ : Client) ∈
        syncReminderGroup 1 0 .overdue [⟨7, 1, -5, true, true⟩] ↔
      ((-5 : Int) < 0)) ∧
    ((⟨7, 1, -5, true, true⟩ : Client) ∈
        syncReminderGroup 1 0 .twoDays [⟨7, 1, -5, true, true⟩] ↔
      ((-5 : Int) = 0 + 2)) :=
  ⟨(sync_classification_buckets 1 0 ⟨7, 1, -5, true, true⟩ [⟨7, 1, -5, true, true⟩]
      (by decide) rfl rfl rfl).2.2.2.1,
   (sync_classification_buckets 1 0 ⟨7, 1, -5, true, true⟩ [⟨7, 1, -5, true, true⟩]
      (by decide) rfl rfl rfl).1⟩

/-! # C8 — clock usage (corrected) -/

/-- C8 counterexample: two environments with identical São Paulo clocks but
different host-local dates give different results both for the overdue
housekeeping pass and for the sync pass's overdue group — so those dates are
computed from the host's local clock, not from America/Sao_Paulo as the
claim states. -/
theorem due_date_check_uses_host_clock :
    checkDueDates ⟨100, 540, 100, 540⟩ [⟨1, 1, 99, true, true⟩] ≠
      checkDueDates ⟨100, 540, 99, 540⟩ [⟨1, 1, 99, true, true⟩] ∧
    syncGroupsEnv ⟨100, 540, 100, 540⟩ 1 .overdue [⟨1, 1, 99, true, true⟩] ≠
      syncGroupsEnv ⟨100, 540, 99, 540⟩ 1 .overdue [⟨1, 1, 99, true, true⟩] ∧
    checkDueDates ⟨100, 540, 99, 540⟩ [⟨1, 1, 99, true, true⟩] ≠
      checkDueDatesSaoPaulo ⟨100, 540, 99, 540⟩ [⟨1, 1, 99, true, true⟩] := by
  decide

/-- C8 (amended): the per-account time-of-day comparison of the live tick
depends only on the São Paulo clock, while the overdue housekeeping
(`_check_due_dates`) and the sync pass's due-date groups depend only on the
host-local date. -/
theorem clock_usage_amended :
    (∀ e e' : ClockEnv, ∀ st : ScheduleSettings, e.spMinutes = e'.spMinutes →
      schedTickRunsEnv e st = schedTickRunsEnv e' st) ∧
    (∀ e e' : ClockEnv, ∀ cs : List Client, e.hostToday = e'.hostToday →
      checkDueDates e cs = checkDueDates e' cs) ∧
    (∀ e e' : ClockEnv, ∀ uid : Nat, ∀ b : Bucket, ∀ cs : List Client,
      e.hostToday = e'.hostToday →
      syncGroupsEnv e uid b cs = syncGroupsEnv e' uid b cs) := by
  refine ⟨?_, ?_, ?_⟩
  · intro e e' st h
    unfold schedTickRunsEnv
    rw [h]
  · intro e e' cs h
    unfold checkDueDates
    rw [h]
  · intro e e' uid b cs h
    unfold syncGroupsEnv
    rw [h]

/-- Witness for C8 (amended) at concrete environments. -/
theorem clock_usage_amended_witness :
    schedTickRunsEnv ⟨0, 600, 0, 600⟩ ⟨some "09:00", some "08:00", true, none, none⟩ =
      schedTickRunsEnv ⟨50, 600, 70, 20⟩ ⟨some "09:00", some "08:00", true, none, none⟩ ∧
    checkDueDates ⟨0, 600, 40, 600⟩ [⟨1, 1, 39, true, true⟩] =
      checkDueDates ⟨50, 0, 40, 20⟩ [⟨1, 1, 39, true, true⟩] :=
  ⟨clock_usage_amended.1 ⟨0, 600, 0, 600⟩ ⟨50, 600, 70, 20⟩
      ⟨some "09:00", some "08:00", true, none, none⟩ rfl,
   clock_usage_amended.2.1 ⟨0, 600, 40, 600⟩ ⟨50, 0, 40, 20⟩
      [⟨1, 1, 39, true, true⟩] rfl⟩

/-! # C6 — template resolution and missing-template skip -/

/-- C6: resolution for an (account, bucket) pair equals first-match
resolution over the bucket's alias list — in this code base the singleton
list holding the bucket's one canonical `template_type` name — and when no
alias resolves to an active template the whole bucket is skipped (the ledger
is untouched) with at most one warning, however many clients are in the
bucket. -/
theorem template_resolution_and_missing_bucket (templates : List MessageTemplate)
    (uid : Nat) (b : Bucket) (today : Int) (send : Nat → SendOutcome)
    (clients : List Client) (ledger : List MessageLog)
    (hnone : resolveTemplate templates uid (Bucket.typeName b) = none) :
    (∀ (ts : List MessageTemplate) (u : Nat) (b' : Bucket),
      resolveTemplate ts u (Bucket.typeName b') =
        resolveByAliases ts u (bucketAliases b')) ∧
    (processSyncBucket templates uid today send clients b ledger).1 = ledger ∧
    (processSyncBucket templates uid today send clients b ledger).2 ≤ 1 := by
  refine ⟨?_, ?_, ?_⟩
  · intro ts u b'
    unfold bucketAliases resolveByAliases
    cases resolveTemplate ts u (Bucket.typeName b') <;> simp [resolveByAliases]
  · unfold processSyncBucket
    cases hs : (syncReminderGroup uid today b clients).isEmpty <;> simp [hs, hnone]
  · unfold processSyncBucket
    cases hs : (syncReminderGroup uid today b clients).isEmpty <;> simp [hs, hnone]

/-- Witness for C6: a store holding only an inactive `reminder_due_date`
template and an active template of another type resolves to nothing for
bucket `dueToday`, and the bucket is skipped with one warning for a
two-client group. -/
theorem template_resolution_and_missing_bucket_witness :
    (processSyncBucket [⟨1, 1, "reminder_due_date", false⟩, ⟨2, 1, "welcome", true⟩]
        1 0 (fun _ => SendOutcome.ok true none)
        [⟨1, 1, 0, true, true⟩, ⟨2, 1, 0, true, true⟩] .dueToday []).1 = [] ∧
    (processSyncBucket [⟨1, 1, "reminder_due_date", false⟩, ⟨2, 1, "welcome", true⟩]
        1 0 (fun _ => SendOutcome.ok true none)
        [⟨1, 1, 0, true, true⟩, ⟨2, 1, 0, true, true⟩] .dueToday []).2 ≤ 1 :=
  ⟨(template_resolution_and_missing_bucket _ 1 .dueToday 0 _ _ [] (by decide)).2.1,
   (template_resolution_and_missing_bucket _ 1 .dueToday 0 _ _ [] (by decide)).2.2⟩

/-! # C4 — retry behaviour (corrected) -/

/-- A step of the retry loop cannot turn a non-successful `resp` into a
successful one when the attempt itself did not succeed. -/
theorem respStep_not_success (o : SendOutcome) (resp : Option (Bool × Option String))
    (ho : outcomeSuccess o = false)
    (hr : resp.elim false (fun r => r.1) = false) :
    (respStep o resp).elim false (fun r => r.1) = false := by
  cases o with
  | ok s e =>
    simp [outcomeSuccess] at ho
    simp [respStep, ho]
  | exn m => simpa [respStep] using hr

/-- With a transport that fails every attempt, the retry loop performs every
scheduled attempt, sleeps after each one, and ends without a successful
response. -/
theorem dbRetryLoop_all_fail (t : Nat → SendOutcome)
    (hfail : ∀ a, outcomeSuccess (t a) = false) :
    ∀ (as : List Nat) (resp : Option (Bool × Option String)),
      resp.elim false (fun r => r.1) = false →
      (dbRetryLoop t as resp).1 = as.length ∧
      (dbRetryLoop t as resp).2.1 = as ∧
      ((dbRetryLoop t as resp).2.2).elim false (fun r => r.1) = false := by
  intro as
  induction as with
  | nil =>
    intro resp hr
    exact ⟨rfl, rfl, hr⟩
  | cons a rest ih =>
    intro resp hr
    have hstep := respStep_not_success (t a) resp (hfail a) hr
    have := ih (respStep (t a) resp) hstep
    simp only [dbRetryLoop, hstep]
    simp [this.1, this.2.1, this.2.2]

/-- C4 counterexample: the per-job send of the pipeline invoked by the tick
loop (and by the manual trigger) makes exactly one transport attempt — not
three — and writes one `'failed'` ledger record carrying the transport's
error, when the transport fails. -/
theorem sync_single_attempt_not_three :
    (syncSend (SendOutcome.ok false (some "transport down"))).1 = 1 ∧
    ¬ (syncSend (SendOutcome.ok false (some "transport down"))).1 = 3 ∧
    processSyncClient 1 0 "reminder_due_date"
        (fun _ => SendOutcome.ok false (some "transport down")) []
        ⟨5, 1, 0, true, true⟩ =
      [⟨1, 5, "reminder_due_date", 0, "failed", some "transport down"⟩] := by
  decide

/-- C4 (amended): the retrying pipeline of `database_service.py`
(`_send_reminders_by_type`) makes exactly 3 attempts against an
always-failing transport, sleeping 1s, 2s and 3s, and records one `failed`
outcome carrying the last returned error message; the pipeline actually
invoked by the live tick makes exactly one attempt per job and records
`failed` with that attempt's error; in both pipelines `sent` is recorded
only when the transport reported success. -/
theorem retry_exhaustion_amended (t : Nat → SendOutcome)
    (hfail : ∀ a, outcomeSuccess (t a) = false) :
    (dbSendResult t).1 = 3 ∧
    (dbSendResult t).2.1 = [1, 2, 3] ∧
    dbStatus t = "failed" ∧
    (∀ e : Nat → Option String,
      dbErrorMsg (fun a => SendOutcome.ok false (e a)) = e 3) ∧
    (∀ o, (syncSend o).1 = 1) ∧
    (∀ o, outcomeSuccess o = false → (syncSend o).2.1 = "failed") ∧
    (∀ o, (syncSend o).2.1 = "sent" ↔ outcomeSuccess o = true) ∧
    (∀ t' : Nat → SendOutcome, dbStatus t' = "sent" →
      ∃ a, outcomeSuccess (t' a) = true) := by
  have hmaster := dbRetryLoop_all_fail t hfail [1, 2, 3] none rfl
  refine ⟨hmaster.1, hmaster.2.1, ?_, ?_, ?_, ?_, ?_, ?_⟩
  · unfold dbStatus
    rcases hfin : (dbSendResult t).2.2 with - | ⟨s, e⟩
    · rfl
    · have := hmaster.2.2
      unfold dbSendResult at hfin
      rw [hfin] at this
      simp at this
      rw [this]
  · intro e
    simp [dbErrorMsg, dbSendResult, dbRetryLoop, respStep]
  · intro o
    cases o <;> rfl
  · intro o ho
    cases o with
    | ok s e =>
      simp [outcomeSuccess] at ho
      simp [syncSend, ho]
    | exn m => rfl
  · intro o
    cases o with
    | ok s e => cases s <;> simp [syncSend, outcomeSuccess]
    | exn m => simp [syncSend, outcomeSuccess]
  · intro t' hsent
    by_contra hno
    push_neg at hno
    have hfail' : ∀ a, outcomeSuccess (t' a) = false := by
      intro a
      exact Bool.eq_false_iff.mpr (hno a)
    have hm := dbRetryLoop_all_fail t' hfail' [1, 2, 3] none rfl
    have : dbStatus t' = "failed" := by
      unfold dbStatus
      rcases hfin : (dbSendResult t').2.2 with - | ⟨s, e⟩
      · rfl
      · have h2 := hm.2.2
        unfold dbSendResult at hfin
        rw [hfin] at h2
        simp at h2
        rw [h2]
    rw [this] at hsent
    exact absurd hsent (by decide)

/-- Witness for C4 (amended) at a concrete always-failing transport. -/
theorem retry_exhaustion_amended_witness :
    (dbSendResult (fun _ => SendOutcome.ok false (some "boom"))).1 = 3 ∧
    (dbSendResult (fun _ => SendOutcome.ok false (some "boom"))).2.1 = [1, 2, 3] ∧
    dbStatus (fun _ => SendOutcome.ok false (some "boom")) = "failed" :=
  ⟨(retry_exhaustion_amended (fun _ => SendOutcome.ok false (some "boom"))
      (fun _ => rfl)).1,
   (retry_exhaustion_amended (fun _ => SendOutcome.ok false (some "boom"))
      (fun _ => rfl)).2.1,
   (retry_exhaustion_amended (fun _ => SendOutcome.ok false (some "boom"))
      (fun _ => rfl)).2.2.1⟩

/-! # C1 — at most one `sent` record per (account, client, bucket, date) -/

/-- A ledger with no dedup hit for a key has zero `sent` rows for it. -/
theorem sentCount_eq_zero_of_not_dedupHit (L : List MessageLog) (uid cid : Nat)
    (ty : String) (d : Int) (h : dedupHit L uid cid ty d = false) :
    sentCount L uid cid ty d = 0 := by
  unfold dedupHit at h
  unfold sentCount
  rw [List.length_eq_zero]
  rw [List.any_eq_false] at h
  exact List.filter_eq_nil.mpr h

/-- Appending one row changes a key's `sent` count by one exactly when the
row matches the key. -/
theorem sentCount_append_one (L : List MessageLog) (l0 : MessageLog)
    (uid cid : Nat) (ty : String) (d : Int) :
    sentCount (L ++ [l0]) uid cid ty d =
      sentCount L uid cid ty d +
        (if logMatchesSent uid cid ty d l0 then 1 else 0) := by
  unfold sentCount
  rw [List.filter_append, List.length_append]
  cases h : logMatchesSent uid cid ty d l0 <;> simp [h]

/-- Processing one client preserves the per-key bound: a row is only
appended as `sent` when the dedup query found no `sent` row for exactly that
key in the current ledger. -/
theorem processSyncClient_sentCount_le (uid : Nat) (today : Int) (ty : String)
    (send : Nat → SendOutcome) (L : List MessageLog) (c : Client)
    (u' c' : Nat) (t' : String) (d' : Int)
    (h : sentCount L u' c' t' d' ≤ 1) :
    sentCount (processSyncClient uid today ty send L c) u' c' t' d' ≤ 1 := by
  unfold processSyncClient
  cases hd : dedupHit L uid c.id ty today
  · simp only [Bool.false_eq_true, if_false]
    rw [sentCount_append_one]
    cases hm : logMatchesSent u' c' t' d' (mkSyncLog uid today ty c.id (send c.id))
    · simpa using h
    · unfold logMatchesSent mkSyncLog at hm
      simp only [Bool.and_eq_true, beq_iff_eq] at hm
      obtain ⟨⟨⟨⟨h1, h2⟩, h3⟩, h4⟩, -⟩ := hm
      subst h1
      subst h2
      subst h3
      subst h4
      rw [sentCount_eq_zero_of_not_dedupHit L _ _ _ _ hd]
      simp
  · simpa using h

/-- Folding one bucket's client list preserves the per-key bound. -/
theorem foldl_processSyncClient_sentCount_le (uid : Nat) (today : Int)
    (ty : String) (send : Nat → SendOutcome) (cs : List Client)
    (u' c' : Nat) (t' : String) (d' : Int) :
    ∀ L : List MessageLog, sentCount L u' c' t' d' ≤ 1 →
      sentCount (cs.foldl (processSyncClient uid today ty send) L) u' c' t' d' ≤ 1 := by
  induction cs with
  | nil => intro L h; exact h
  | cons c cs ih =>
    intro L h
    exact ih _ (processSyncClient_sentCount_le uid today ty send L c u' c' t' d' h)

/-- Processing one bucket preserves the per-key bound. -/
theorem processSyncBucket_sentCount_le (templates : List MessageTemplate)
    (uid : Nat) (today : Int) (send : Nat → SendOutcome) (clients : List Client)
    (b : Bucket) (L : List MessageLog)
    (u' c' : Nat) (t' : String) (d' : Int)
    (h : sentCount L u' c' t' d' ≤ 1) :
    sentCount (processSyncBucket templates uid today send clients b L).1
      u' c' t' d' ≤ 1 := by
  unfold processSyncBucket
  cases hs : (syncReminderGroup uid today b clients).isEmpty
  · cases ht : resolveTemplate templates uid b.typeName
    · simpa [hs, ht] using h
    · simp only [hs, Bool.false_eq_true, if_false, ht]
      exact foldl_processSyncClient_sentCount_le uid today b.typeName send _
        u' c' t' d' L h
  · simpa [hs] using h

/-- One full classification pass preserves the per-key bound. -/
theorem processDailyRemindersSync_sentCount_le (templates : List MessageTemplate)
    (uid : Nat) (today : Int) (send : Nat → SendOutcome) (clients : List Client)
    (L : List MessageLog) (u' c' : Nat) (t' : String) (d' : Int)
    (h : sentCount L u' c' t' d' ≤ 1) :
    sentCount (processDailyRemindersSync templates uid today send clients L).1
      u' c' t' d' ≤ 1 := by
  unfold processDailyRemindersSync
  simp only [List.foldl]
  exact processSyncBucket_sentCount_le _ _ _ _ _ _ _ u' c' t' d'
    (processSyncBucket_sentCount_le _ _ _ _ _ _ _ u' c' t' d'
      (processSyncBucket_sentCount_le _ _ _ _ _ _ _ u' c' t' d'
        (processSyncBucket_sentCount_le _ _ _ _ _ _ _ u' c' t' d' h)))

/-- C1: starting from an empty ledger, any sequence of classification-pass
invocations — natural daily ticks, repeated ticks on the same date and
manual "run now" triggers alike — leaves at most one `sent` ledger row for
every (account, client, bucket, calendar date) key: the dedup query
performed immediately before each send attempt is checked against the
session's current ledger, so a second `sent` row for a key can never be
written. -/
theorem ledger_at_most_one_sent (invs : List PassInv) (uid cid : Nat)
    (b : Bucket) (d : Int) :
    sentCount (runPasses invs []) uid cid (Bucket.typeName b) d ≤ 1 := by
  have main : ∀ (is : List PassInv) (L : List MessageLog),
      sentCount L uid cid (Bucket.typeName b) d ≤ 1 →
      sentCount (runPasses is L) uid cid (Bucket.typeName b) d ≤ 1 := by
    intro is
    induction is with
    | nil => intro L h; exact h
    | cons inv is ih =>
      intro L h
      exact ih _ (processDailyRemindersSync_sentCount_le inv.templates inv.uid
        inv.today inv.send inv.clients L uid cid (Bucket.typeName b) d h)
  exact main invs [] (by simp [sentCount])

/-! # C7 — template body rendering -/

/-- `replaceAll` on the empty string. -/
theorem replaceAll_nil (p r : List Char) : replaceAll p r [] = [] := by
  simp [replaceAll]

/-- `replaceAll` when the pattern matches at the head. -/
theorem replaceAll_cons_pos (p r : List Char) (c : Char) (s : List Char)
    (h1 : p ≠ []) (h2 : p.isPrefixOf (c :: s) = true) :
    replaceAll p r (c :: s) = r ++ replaceAll p r ((c :: s).drop p.length) := by
  simp only [replaceAll]
  rw [dif_pos ⟨h1, h2⟩]

/-- `replaceAll` when the pattern does not match at the head. -/
theorem replaceAll_cons_neg (p r : List Char) (c : Char) (s : List Char)
    (h : p.isPrefixOf (c :: s) = false) :
    replaceAll p r (c :: s) = c :: replaceAll p r s := by
  have hc : ¬ (p ≠ [] ∧ p.isPrefixOf (c :: s) = true) := fun hc => by
    simp [hc.2] at h
  simp only [replaceAll]
  rw [dif_neg hc]

/-- A pattern that mismatches inside `x` is not a head match of `x ++ s`. -/
theorem mismatchWithin_isPrefixOf_false (p x s : List Char)
    (h : mismatchWithin p x = true) : p.isPrefixOf (x ++ s) = false := by
  induction p generalizing x with
  | nil => cases x <;> simp [mismatchWithin] at h
  | cons a p ih =>
    cases x with
    | nil => simp [mismatchWithin] at h
    | cons b x' =>
      simp only [mismatchWithin, Bool.or_eq_true] at h
      rcases h with h | h
      · have hab : (a == b) = false := by
          simpa [bne] using h
        simp [List.isPrefixOf, hab]
      · simp [List.isPrefixOf, ih x' h]

/-- Skipping a segment inside which the pattern can never begin to match:
`str.replace` copies it verbatim. -/
theorem replaceAll_append_localMismatch (p r x s : List Char)
    (h : localMismatchB p x = true) :
    replaceAll p r (x ++ s) = x ++ replaceAll p r s := by
  induction x with
  | nil => simp
  | cons c x' ih =>
    simp only [localMismatchB, Bool.and_eq_true] at h
    have hpre : p.isPrefixOf (c :: (x' ++ s)) = false := by
      have := mismatchWithin_isPrefixOf_false p (c :: x') s h.1
      simpa using this
    rw [List.cons_append, replaceAll_cons_neg p r c (x' ++ s) hpre, ih h.2,
      List.cons_append]

/-- `str.replace` substitutes an occurrence of the pattern. -/
theorem replaceAll_key (p r s : List Char) (hp : p ≠ []) :
    replaceAll p r (p ++ s) = r ++ replaceAll p r s := by
  cases p with
  | nil => cases hp rfl
  | cons a p' =>
    have h2 : (a :: p').isPrefixOf (a :: (p' ++ s)) = true := by
      simpa using isPrefixOf_self_append (a :: p') s
    rw [List.cons_append, replaceAll_cons_pos (a :: p') r a (p' ++ s) hp h2]
    congr 1
    rw [show a :: (p' ++ s) = (a :: p') ++ s from rfl, List.drop_left]

/-- `str.replace` leaves a string without occurrences of the pattern
unchanged. -/
theorem replaceAll_not_contains (p r s : List Char)
    (h : containsSeq p s = false) : replaceAll p r s = s := by
  induction s with
  | nil => exact replaceAll_nil p r
  | cons c s' ih =>
    simp only [containsSeq, Bool.or_eq_false_iff] at h
    rw [replaceAll_cons_neg p r c s' h.1, ih h.2]

/-- A `'{'`-headed pattern can never begin to match inside a brace-free
segment. -/
theorem localMismatchB_of_openBraceFree (p' x : List Char)
    (h : openBraceFreeB x = true) :
    localMismatchB ('{' :: p') x = true := by
  induction x with
  | nil => rfl
  | cons b x' ih =>
    simp only [openBraceFreeB, List.all_cons, Bool.and_eq_true] at h
    simp only [localMismatchB, Bool.and_eq_true]
    refine ⟨?_, ih ?_⟩
    · simp only [mismatchWithin, Bool.or_eq_true]
      left
      exact bne_iff_ne.mpr (Ne.symm (bne_iff_ne.mp h.1))
    · simpa [openBraceFreeB] using h.2

/-- Digit characters are not `'{'`. -/
theorem digitChar_ne_brace (d : Nat) (hd : d < 10) :
    (Char.ofNat (48 + d) != '{') = true := by
  interval_cases d <;> decide

/-- The decimal digits of a number contain no brace. -/
theorem natDigitsAux_openBraceFree :
    ∀ fuel n : Nat, openBraceFreeB (natDigitsAux fuel n) = true := by
  intro fuel
  induction fuel with
  | zero => intro n; rfl
  | succ f ih =>
    intro n
    simp only [natDigitsAux]
    by_cases h : n < 10
    · rw [if_pos h]
      simp [openBraceFreeB, digitChar_ne_brace n h]
    · rw [if_neg h]
      simp only [openBraceFreeB, List.all_append, List.all_cons, List.all_nil,
        Bool.and_eq_true]
      refine ⟨?_, ?_, trivial⟩
      · exact ih (n / 10)
      · exact digitChar_ne_brace (n % 10) (Nat.mod_lt n (by norm_num))

/-- The decimal digits of a number contain no brace. -/
theorem natDigits_openBraceFree (n : Nat) : openBraceFreeB (natDigits n) = true :=
  natDigitsAux_openBraceFree (n + 1) n

/-- Two-digit padding contains no brace. -/
theorem pad2_openBraceFree (n : Nat) : openBraceFreeB (pad2 n) = true := by
  unfold pad2
  by_cases h : n < 10
  · rw [if_pos h]
    simpa [openBraceFreeB] using
      List.all_eq_true.mp (natDigits_openBraceFree n)
  · rw [if_neg h]
    exact natDigits_openBraceFree n

/-- Four-digit padding contains no brace. -/
theorem pad4_openBraceFree (n : Nat) : openBraceFreeB (pad4 n) = true := by
  unfold pad4
  split
  · simpa [openBraceFreeB] using List.all_eq_true.mp (natDigits_openBraceFree n)
  · split
    · simpa [openBraceFreeB] using List.all_eq_true.mp (natDigits_openBraceFree n)
    · split
      · simpa [openBraceFreeB] using List.all_eq_true.mp (natDigits_openBraceFree n)
      · exact natDigits_openBraceFree n

/-- The two-decimal price format contains no brace. -/
theorem fmtPrice_openBraceFree (cents : Nat) :
    openBraceFreeB (fmtPrice cents) = true := by
  unfold fmtPrice
  simp only [openBraceFreeB, List.all_append, List.all_cons, Bool.and_eq_true]
  refine ⟨natDigits_openBraceFree _, by decide, ?_⟩
  exact pad2_openBraceFree _

/-- `openBraceFreeB` over append. -/
theorem openBraceFreeB_append (a b : List Char) :
    openBraceFreeB (a ++ b) = (openBraceFreeB a && openBraceFreeB b) := by
  simp [openBraceFreeB, List.all_append]

/-- `openBraceFreeB` over cons. -/
theorem openBraceFreeB_cons (c : Char) (s : List Char) :
    openBraceFreeB (c :: s) = ((c != '{') && openBraceFreeB s) := by
  simp [openBraceFreeB]

/-- The `DD/MM/YYYY` date format contains no brace. -/
theorem fmtDate_openBraceFree (d m y : Nat) :
    openBraceFreeB (fmtDate d m y) = true := by
  unfold fmtDate
  rw [openBraceFreeB_append, openBraceFreeB_cons, openBraceFreeB_append,
    openBraceFreeB_cons]
  simp [pad2_openBraceFree, pad4_openBraceFree]

/-- A `'{'`-headed pattern can never begin to match inside a brace-free
segment (head-of-pattern form). -/
theorem localMismatchB_of_head_brace (p x : List Char)
    (hh : p.head? = some '{') (h : openBraceFreeB x = true) :
    localMismatchB p x = true := by
  cases p with
  | nil => cases hh
  | cons a p' =>
    have : a = '{' := by simpa using hh
    subst this
    exact localMismatchB_of_openBraceFree p' x h

/-- `strip()` is the identity on a string with non-whitespace ends. -/
theorem pyStrip_eq_self (s : List Char)
    (h1 : ∀ c, s.head? = some c → c.isWhitespace = false)
    (h2 : ∀ c, s.getLast? = some c → c.isWhitespace = false) :
    pyStrip s = s := by
  cases s with
  | nil => rfl
  | cons a s' =>
    unfold pyStrip
    have ha : a.isWhitespace = false := h1 a rfl
    rw [List.dropWhile_cons, ha]
    simp only [Bool.false_eq_true, if_false]
    cases hrev : (a :: s').reverse with
    | nil => exact absurd hrev (by simp)
    | cons b t =>
      have hb : (a :: s').getLast? = some b := by
        rw [← List.head?_reverse, hrev]
        rfl
      have hbw : b.isWhitespace = false := h2 b hb
      have hd2 : List.dropWhile Char.isWhitespace (b :: t) = b :: t := by
        rw [List.dropWhile_cons, hbw]
        simp
      rw [hd2, ← hrev, List.reverse_reverse]

/-- The last element of an append whose right part has a last element. -/
theorem getLast?_append_some (l t : List Char) (c : Char)
    (h : t.getLast? = some c) : (l ++ t).getLast? = some c := by
  have ht : t ≠ [] := by
    intro he
    rw [he] at h
    cases h
  rw [List.getLast?_append_of_ne_nil l ht]
  exact h

/-- Head of the canonical rendered result. -/
theorem head?_data_A_append (x : List Char) :
    ("A".data ++ x).head? = some 'A' := rfl

/-- C7: body rendering substitutes exactly the fixed placeholder set —
client name, plan name, price with two decimals, due date as `DD/MM/YYYY`,
server label and free-text extra info — verbatim into the template, and a
template containing none of the six keys (in particular one made only of
unknown placeholders and text) passes through the substitution loop
unchanged; rendering is total, so no error is raised.  Field values are
assumed brace-free, which is what makes the sequential `str.replace` chain
equal verbatim substitution; the `{foo}` placeholder of the canonical
template is left as-is in the output. -/
theorem template_rendering_fixed_set (c : RenderClient)
    (hn : openBraceFreeB c.name = true)
    (hp : openBraceFreeB c.planName = true)
    (hs : openBraceFreeB c.server = true)
    (hsne : c.server ≠ [])
    (hone : c.otherInfo ≠ []) :
    (∀ t : List Char, (∀ k ∈ templateKeys, containsSeq k t = false) →
      renderCore c t = t) ∧
    renderTemplate c tpl =
      "A".data ++ (c.name ++ ("|{foo}|".data ++ (c.planName ++ ("|".data ++
        (fmtPrice c.priceCents ++ ("|".data ++
        (fmtDate c.dueDay c.dueMonth c.dueYear ++ ("|".data ++ (c.server ++
        ("|".data ++ (c.otherInfo ++ "Z".data))))))))))) := by
  have hsv : serverValue c = c.server := by
    unfold serverValue
    rw [if_neg hsne]
  have hjn : ∀ p' : List Char, localMismatchB ('{' :: p') c.name = true :=
    fun p' => localMismatchB_of_openBraceFree p' c.name hn
  have hjp : ∀ p' : List Char, localMismatchB ('{' :: p') c.planName = true :=
    fun p' => localMismatchB_of_openBraceFree p' c.planName hp
  have hjs : ∀ p' : List Char, localMismatchB ('{' :: p') c.server = true :=
    fun p' => localMismatchB_of_openBraceFree p' c.server hs
  have hjv : ∀ p : List Char, p.head? = some '{' →
      localMismatchB p (fmtPrice c.priceCents) = true :=
    fun p hh => localMismatchB_of_head_brace p _ hh (fmtPrice_openBraceFree _)
  have hjd : ∀ p : List Char, p.head? = some '{' →
      localMismatchB p (fmtDate c.dueDay c.dueMonth c.dueYear) = true :=
    fun p hh => localMismatchB_of_head_brace p _ hh (fmtDate_openBraceFree _ _ _)
  constructor
  · intro t hk
    unfold renderCore
    rw [replaceAll_not_contains "{nome}".data c.name t
        (hk "{nome}".data (by decide)),
      replaceAll_not_contains "{plano}".data c.planName t
        (hk "{plano}".data (by decide)),
      replaceAll_not_contains "{valor}".data (fmtPrice c.priceCents) t
        (hk "{valor}".data (by decide)),
      replaceAll_not_contains "{vencimento}".data
        (fmtDate c.dueDay c.dueMonth c.dueYear) t
        (hk "{vencimento}".data (by decide)),
      replaceAll_not_contains "{servidor}".data (serverValue c) t
        (hk "{servidor}".data (by decide)),
      replaceAll_not_contains "{informacoes_extras}".data c.otherInfo t
        (hk "{informacoes_extras}".data (by decide))]
  · unfold renderTemplate
    rw [if_neg hone]
    unfold renderCore tpl
    rw [hsv]
    rw [replaceAll_append_localMismatch "{nome}".data c.name "A".data _ (by decide)]
    rw [replaceAll_key "{nome}".data c.name _ (by decide)]
    rw [replaceAll_append_localMismatch "{nome}".data c.name "|{foo}|".data _ (by decide)]
    rw [replaceAll_append_localMismatch "{nome}".data c.name "{plano}".data _ (by decide)]
    rw [replaceAll_append_localMismatch "{nome}".data c.name "|".data _ (by decide)]
    rw [replaceAll_append_localMismatch "{nome}".data c.name "{valor}".data _ (by decide)]
    rw [replaceAll_append_localMismatch "{nome}".data c.name "|".data _ (by decide)]
    rw [replaceAll_append_localMismatch "{nome}".data c.name "{vencimento}".data _ (by decide)]
    rw [replaceAll_append_localMismatch "{nome}".data c.name "|".data _ (by decide)]
    rw [replaceAll_append_localMismatch "{nome}".data c.name "{servidor}".data _ (by decide)]
    rw [replaceAll_append_localMismatch "{nome}".data c.name "|".data _ (by decide)]
    rw [replaceAll_append_localMismatch "{nome}".data c.name "{informacoes_extras}".data _ (by decide)]
    rw [replaceAll_not_contains "{nome}".data c.name "Z".data (by decide)]
    rw [replaceAll_append_localMismatch "{plano}".data c.planName "A".data _ (by decide)]
    rw [replaceAll_append_localMismatch "{plano}".data c.planName c.name _ (hjn _)]
    rw [replaceAll_append_localMismatch "{plano}".data c.planName "|{foo}|".data _ (by decide)]
    rw [replaceAll_key "{plano}".data c.planName _ (by decide)]
    rw [replaceAll_append_localMismatch "{plano}".data c.planName "|".data _ (by decide)]
    rw [replaceAll_append_localMismatch "{plano}".data c.planName "{valor}".data _ (by decide)]
    rw [replaceAll_append_localMismatch "{plano}".data c.planName "|".data _ (by decide)]
    rw [replaceAll_append_localMismatch "{plano}".data c.planName "{vencimento}".data _ (by decide)]
    rw [replaceAll_append_localMismatch "{plano}".data c.planName "|".data _ (by decide)]
    rw [replaceAll_append_localMismatch "{plano}".data c.planName "{servidor}".data _ (by decide)]
    rw [replaceAll_append_localMismatch "{plano}".data c.planName "|".data _ (by decide)]
    rw [replaceAll_append_localMismatch "{plano}".data c.planName "{informacoes_extras}".data _ (by decide)]
    rw [replaceAll_not_contains "{plano}".data c.planName "Z".data (by decide)]
    rw [replaceAll_append_localMismatch "{valor}".data (fmtPrice c.priceCents) "A".data _ (by decide)]
    rw [replaceAll_append_localMismatch "{valor}".data (fmtPrice c.priceCents) c.name _ (hjn _)]
    rw [replaceAll_append_localMismatch "{valor}".data (fmtPrice c.priceCents) "|{foo}|".data _ (by decide)]
    rw [replaceAll_append_localMismatch "{valor}".data (fmtPrice c.priceCents) c.planName _ (hjp _)]
    rw [replaceAll_append_localMismatch "{valor}".data (fmtPrice c.priceCents) "|".data _ (by decide)]
    rw [replaceAll_key "{valor}".data (fmtPrice c.priceCents) _ (by decide)]
    rw [replaceAll_append_localMismatch "{valor}".data (fmtPrice c.priceCents) "|".data _ (by decide)]
    rw [replaceAll_append_localMismatch "{valor}".data (fmtPrice c.priceCents) "{vencimento}".data _ (by decide)]
    rw [replaceAll_append_localMismatch "{valor}".data (fmtPrice c.priceCents) "|".data _ (by decide)]
    rw [replaceAll_append_localMismatch "{valor}".data (fmtPrice c.priceCents) "{servidor}".data _ (by decide)]
    rw [replaceAll_append_localMismatch "{valor}".data (fmtPrice c.priceCents) "|".data _ (by decide)]
    rw [replaceAll_append_localMismatch "{valor}".data (fmtPrice c.priceCents) "{informacoes_extras}".data _ (by decide)]
    rw [replaceAll_not_contains "{valor}".data (fmtPrice c.priceCents) "Z".data (by decide)]
    rw [replaceAll_append_localMismatch "{vencimento}".data (fmtDate c.dueDay c.dueMonth c.dueYear) "A".data _ (by decide)]
    rw [replaceAll_append_localMismatch "{vencimento}".data (fmtDate c.dueDay c.dueMonth c.dueYear) c.name _ (hjn _)]
    rw [replaceAll_append_localMismatch "{vencimento}".data (fmtDate c.dueDay c.dueMonth c.dueYear) "|{foo}|".data _ (by decide)]
    rw [replaceAll_append_localMismatch "{vencimento}".data (fmtDate c.dueDay c.dueMonth c.dueYear) c.planName _ (hjp _)]
    rw [replaceAll_append_localMismatch "{vencimento}".data (fmtDate c.dueDay c.dueMonth c.dueYear) "|".data _ (by decide)]
    rw [replaceAll_append_localMismatch "{vencimento}".data (fmtDate c.dueDay c.dueMonth c.dueYear) (fmtPrice c.priceCents) _ (hjv _ (by decide))]
    rw [replaceAll_append_localMismatch "{vencimento}".data (fmtDate c.dueDay c.dueMonth c.dueYear) "|".data _ (by decide)]
    rw [replaceAll_key "{vencimento}".data (fmtDate c.dueDay c.dueMonth c.dueYear) _ (by decide)]
    rw [replaceAll_append_localMismatch "{vencimento}".data (fmtDate c.dueDay c.dueMonth c.dueYear) "|".data _ (by decide)]
    rw [replaceAll_append_localMismatch "{vencimento}".data (fmtDate c.dueDay c.dueMonth c.dueYear) "{servidor}".data _ (by decide)]
    rw [replaceAll_append_localMismatch "{vencimento}".data (fmtDate c.dueDay c.dueMonth c.dueYear) "|".data _ (by decide)]
    rw [replaceAll_append_localMismatch "{vencimento}".data (fmtDate c.dueDay c.dueMonth c.dueYear) "{informacoes_extras}".data _ (by decide)]
    rw [replaceAll_not_contains "{vencimento}".data (fmtDate c.dueDay c.dueMonth c.dueYear) "Z".data (by decide)]
    rw [replaceAll_append_localMismatch "{servidor}".data c.server "A".data _ (by decide)]
    rw [replaceAll_append_localMismatch "{servidor}".data c.server c.name _ (hjn _)]
    rw [replaceAll_append_localMismatch "{servidor}".data c.server "|{foo}|".data _ (by decide)]
    rw [replaceAll_append_localMismatch "{servidor}".data c.server c.planName _ (hjp _)]
    rw [replaceAll_append_localMismatch "{servidor}".data c.server "|".data _ (by decide)]
    rw [replaceAll_append_localMismatch "{servidor}".data c.server (fmtPrice c.priceCents) _ (hjv _ (by decide))]
    rw [replaceAll_append_localMismatch "{servidor}".data c.server "|".data _ (by decide)]
    rw [replaceAll_append_localMismatch "{servidor}".data c.server (fmtDate c.dueDay c.dueMonth c.dueYear) _ (hjd _ (by decide))]
    rw [replaceAll_append_localMismatch "{servidor}".data c.server "|".data _ (by decide)]
    rw [replaceAll_key "{servidor}".data c.server _ (by decide)]
    rw [replaceAll_append_localMismatch "{servidor}".data c.server "|".data _ (by decide)]
    rw [replaceAll_append_localMismatch "{servidor}".data c.server "{informacoes_extras}".data _ (by decide)]
    rw [replaceAll_not_contains "{servidor}".data c.server "Z".data (by decide)]
    rw [replaceAll_append_localMismatch "{informacoes_extras}".data c.otherInfo "A".data _ (by decide)]
    rw [replaceAll_append_localMismatch "{informacoes_extras}".data c.otherInfo c.name _ (hjn _)]
    rw [replaceAll_append_localMismatch "{informacoes_extras}".data c.otherInfo "|{foo}|".data _ (by decide)]
    rw [replaceAll_append_localMismatch "{informacoes_extras}".data c.otherInfo c.planName _ (hjp _)]
    rw [replaceAll_append_localMismatch "{informacoes_extras}".data c.otherInfo "|".data _ (by decide)]
    rw [replaceAll_append_localMismatch "{informacoes_extras}".data c.otherInfo (fmtPrice c.priceCents) _ (hjv _ (by decide))]
    rw [replaceAll_append_localMismatch "{informacoes_extras}".data c.otherInfo "|".data _ (by decide)]
    rw [replaceAll_append_localMismatch "{informacoes_extras}".data c.otherInfo (fmtDate c.dueDay c.dueMonth c.dueYear) _ (hjd _ (by decide))]
    rw [replaceAll_append_localMismatch "{informacoes_extras}".data c.otherInfo "|".data _ (by decide)]
    rw [replaceAll_append_localMismatch "{informacoes_extras}".data c.otherInfo c.server _ (hjs _)]
    rw [replaceAll_append_localMismatch "{informacoes_extras}".data c.otherInfo "|".data _ (by decide)]
    rw [replaceAll_key "{informacoes_extras}".data c.otherInfo _ (by decide)]
    rw [replaceAll_not_contains "{informacoes_extras}".data c.otherInfo "Z".data (by decide)]
    apply pyStrip_eq_self
    · intro ch hch
      rw [head?_data_A_append] at hch
      injection hch with h
      rw [← h]
      decide
    · intro ch hch
      have hz := getLast?_append_some "A".data _ 'Z'
        (getLast?_append_some c.name _ 'Z'
          (getLast?_append_some "|{foo}|".data _ 'Z'
            (getLast?_append_some c.planName _ 'Z'
              (getLast?_append_some "|".data _ 'Z'
                (getLast?_append_some (fmtPrice c.priceCents) _ 'Z'
                  (getLast?_append_some "|".data _ 'Z'
                    (getLast?_append_some (fmtDate c.dueDay c.dueMonth c.dueYear) _ 'Z'
                      (getLast?_append_some "|".data _ 'Z'
                        (getLast?_append_some c.server _ 'Z'
                          (getLast?_append_some "|".data _ 'Z'
                            (getLast?_append_some c.otherInfo "Z".data 'Z'
                              (by decide))))))))))))
      rw [hz] at hch
      injection hch with h
      rw [← h]
      decide

/-- Witness for C7 at a concrete client: name "Maria", plan "Plano Max",
price 10.50, due 05/03/2026, server "SRV1", extra info "obs". -/
theorem template_rendering_fixed_set_witness :
    openBraceFreeB "Maria".data = true ∧
    renderTemplate ⟨"Maria".data, "Plano Max".data, 1050, 5, 3, 2026,
        "SRV1".data, "obs".data⟩ tpl =
      "A".data ++ ("Maria".data ++ ("|{foo}|".data ++ ("Plano Max".data ++
        ("|".data ++ (fmtPrice 1050 ++ ("|".data ++ (fmtDate 5 3 2026 ++
        ("|".data ++ ("SRV1".data ++ ("|".data ++
        ("obs".data ++ "Z".data))))))))))) :=
  ⟨by decide,
   (template_rendering_fixed_set
      ⟨"Maria".data, "Plano Max".data, 1050, 5, 3, 2026, "SRV1".data, "obs".data⟩
      (by decide) (by decide) (by decide) (by decide) (by decide)).2⟩
